import Mathlib

/-
Shallow embedding of src/App.js (AI-English-Tutor-Frontend).

The component state of export default function App is modelled as an
explicit record, and each event handler as a function from state to
state together with a list of externally observable effects (HTTP
requests, alerts, text-to-speech calls).  JS strings become String,
the possibly-undefined assistant text becomes Option String, and the
two Date.now readings of one exchange become explicit Nat parameters.
The awaited axios.post is modelled by a RemoteOutcome parameter: the
promise either resolves with a response object or rejects (network
error or non-2xx status).

Two framework-level modelling decisions, both noted again at the
definitions they affect:
- setTextToProcess also updates textRef, because the useEffect at
  src/App.js lines 133-136 syncs the ref with the state within one
  render flush, long before the 1000 ms release timer (the only
  reader of textRef) can fire; the sync is therefore modelled as
  immediate.
- sendTextToBackend is modelled as one atomic step: its synchronous
  prelude (guard, user-message append, candidate clearing, request
  issue) and the continuation after the await (assistant or system
  message append, loading clear).  No handler in the file reads the
  fields the continuation writes between the two halves, so the
  claims treated here are insensitive to the split.
-/

namespace AITutor

/-- Sender tag of a chat message: the literals used at src/App.js
lines 99, 111 and 124 are the strings user, ai and system. -/
inductive Sender
  | user
  | ai
  | system
deriving DecidableEq, Repr

/-- A chat message as built in src/App.js: an object with fields id,
text and sender.  The text is an Option String because the assistant
text response.data.reply is the JS value undefined whenever the
response body carries no reply field; user and system messages always
carry a defined string. -/
structure Message where
  id : Nat
  text : Option String
  sender : Sender
deriving DecidableEq, Repr

/-- The parsed HTTP response body as the code consumes it: only its
reply field is ever read, and that field may be absent (none). -/
structure ResponseBody where
  reply : Option String
deriving DecidableEq, Repr

/-- The axios response object.  Its body is in the data field; the
response object itself has no reply property. -/
structure AxiosResponse where
  data : ResponseBody
deriving DecidableEq, Repr

/-- JS nullish coalescing a ?? b on possibly-undefined string values. -/
def jsNullish (a b : Option String) : Option String :=
  match a with
  | some v => some v
  | none => b

/-- src/App.js line 110: const aiResponse = response.reply ?? response.data.reply.
An axios response object has fields data, status, headers and config
and no reply property, so response.reply evaluates to the JS value
undefined (none here) and the nullish coalescing always falls through
to response.data.reply. -/
def respAiResponse (response : AxiosResponse) : Option String :=
  jsNullish none response.data.reply

/-- Outcome of the awaited axios.post together with the Date.now
reading taken when the continuation runs (src/App.js line 111 on
resolution, line 124 on rejection).  A 2xx response whose body lacks
a reply field still resolves; rejection means a network error or a
non-2xx status. -/
inductive RemoteOutcome
  | resolved (response : AxiosResponse) (t1 : Nat)
  | rejected (t1 : Nat)
deriving DecidableEq, Repr

/-- The Date.now reading carried by the outcome. -/
def RemoteOutcome.time : RemoteOutcome → Nat
  | .resolved _ t1 => t1
  | .rejected t1 => t1

/-- The whitespace class of JS String.prototype.trim: WhiteSpace
(tab, vertical tab, form feed, space, no-break space, byte order
mark, Unicode space separators) and LineTerminator (line feed,
carriage return, line separator, paragraph separator). -/
def jsIsWhitespace (c : Char) : Bool :=
  c.val = 9 ∨ c.val = 10 ∨ c.val = 11 ∨ c.val = 12 ∨ c.val = 13 ∨
  c.val = 32 ∨ c.val = 160 ∨ c.val = 0x1680 ∨
  (0x2000 ≤ c.val ∧ c.val ≤ 0x200A) ∨ c.val = 0x2028 ∨ c.val = 0x2029 ∨
  c.val = 0x202F ∨ c.val = 0x205F ∨ c.val = 0x3000 ∨ c.val = 0xFEFF

/-- JS String.prototype.trim: strip leading and trailing whitespace.
Defined by structural recursion over the character list. -/
def jsTrim (s : String) : String :=
  String.mk (((s.data.dropWhile jsIsWhitespace).reverse.dropWhile
    jsIsWhitespace).reverse)

/-- src/App.js line 10. -/
def API_URL : String := "http://localhost:8000/chat"

/-- The request body: a JSON object with the single field text,
as built by the object literal passed to axios.post at line 104. -/
structure ReqBody where
  text : String
deriving DecidableEq, Repr

/-- An HTTP request as issued by axios.post(API_URL, body, config):
method POST, the fixed URL, the one-field JSON body, and the
Content-Type header set in the config at line 105. -/
structure Request where
  method : String
  url : String
  body : ReqBody
  contentType : String
deriving DecidableEq, Repr

/-- Externally observable effects of one handler run. -/
inductive Effect
  | httpRequest (r : Request)
  | alert (title message : String)
  | speak (text : Option String)
deriving DecidableEq, Repr

/-- The component state of App: the messages list, the two boolean
flags, the candidate text state textToProcess (line 28) and the ref
textRef (line 131) that mirrors it. -/
structure AppState where
  messages : List Message
  isRecording : Bool
  isLoading : Bool
  textToProcess : String
  textRef : String
deriving DecidableEq, Repr

/-- The initial state: useState([]), useState(false), useState(false),
useState(two single quotes) and useRef of the empty string. -/
def initState : AppState :=
  { messages := [], isRecording := false, isLoading := false,
    textToProcess := "", textRef := "" }

/-- setTextToProcess together with the useEffect at src/App.js lines
133-136 that keeps textRef.current in sync with it.  The sync effect
runs within one render flush, milliseconds after the set, while the
only reader of textRef is the 1000 ms release timer; the sync is
therefore modelled as immediate. -/
def setTextToProcess (s : String) (st : AppState) : AppState :=
  { st with textToProcess := s, textRef := s }

/-- src/App.js lines 95-128.  t0 is the Date.now reading at line 99;
outcome carries the later reading used at line 111 or 124.  Returns
the updated state and the emitted effects.  The guard at line 96
returns early when text is falsy (the empty string) or trims to the
empty string.  On the main path the user message is appended, the
candidate text is cleared, the request goes out, and the awaited
outcome appends either the assistant message (id Date.now() + 1,
text from respAiResponse, then a speak call) or the system error
message plus an alert; the finally block clears isLoading. -/
def sendTextToBackend (text : String) (t0 : Nat) (outcome : RemoteOutcome)
    (st : AppState) : AppState × List Effect :=
  if text = "" ∨ jsTrim text = "" then (st, [])
  else
    let userMsg : Message := ⟨t0, some text, .user⟩
    let req : Request := ⟨"POST", API_URL, ⟨text⟩, "application/json"⟩
    let st1 : AppState :=
      { st with isLoading := true,
                messages := st.messages ++ [userMsg],
                textToProcess := "", textRef := "" }
    match outcome with
    | .resolved response t1 =>
        let aiText := respAiResponse response
        ({ st1 with messages := st1.messages ++ [⟨t1 + 1, aiText, .ai⟩],
                    isLoading := false },
         [.httpRequest req, .speak aiText])
    | .rejected t1 =>
        ({ st1 with
             messages := st1.messages ++
               [⟨t1, some "Error connecting to server.", .system⟩],
             isLoading := false },
         [.httpRequest req, .alert "Error" "Failed to connect to the tutor."])

/-- src/App.js lines 50-52. -/
def onSpeechStart (st : AppState) : AppState × List Effect :=
  ({ st with isRecording := true }, [])

/-- src/App.js lines 54-60: clear the recording flag, then send the
candidate text when its trim is a truthy (nonempty) string. -/
def onSpeechEnd (t0 : Nat) (outcome : RemoteOutcome) (st : AppState) :
    AppState × List Effect :=
  let st := { st with isRecording := false }
  if jsTrim st.textToProcess = "" then (st, [])
  else sendTextToBackend st.textToProcess t0 outcome st

/-- src/App.js lines 62-65. -/
def onSpeechError (st : AppState) : AppState × List Effect :=
  ({ st with isRecording := false }, [])

/-- src/App.js lines 67-71: only an event whose value list is present
and nonempty replaces the candidate text, with its first element. -/
def onSpeechResults (value : Option (List String)) (st : AppState) :
    AppState × List Effect :=
  match value with
  | some (v :: _) => (setTextToProcess v st, [])
  | _ => (st, [])

/-- src/App.js lines 73-84 via handlePressIn (line 138): clear the
candidate text, stop a still-active recognizer session, then start a
new one (Voice.start is an external call with no state effect here). -/
def handlePressIn (st : AppState) : AppState × List Effect :=
  let st := setTextToProcess "" st
  (if st.isRecording then { st with isRecording := false } else st, [])

/-- src/App.js lines 142-143: the synchronous part of handlePressOut,
i.e. stopRecording (lines 86-93).  The 1000 ms timer body it schedules
is a separate later event, pressOutTimer. -/
def handlePressOut (st : AppState) : AppState × List Effect :=
  ({ st with isRecording := false }, [])

/-- The body of the 1000 ms timer scheduled at src/App.js lines
144-148: if textRef.current is truthy (a nonempty string), send it. -/
def pressOutTimer (t0 : Nat) (outcome : RemoteOutcome) (st : AppState) :
    AppState × List Effect :=
  if st.textRef = "" then (st, [])
  else sendTextToBackend st.textRef t0 outcome st

/-- The events the UI thread can dispatch.  Events that may reach
sendTextToBackend carry the Date.now reading t0 and the remote
outcome of the exchange they would start. -/
inductive Event
  | pressIn
  | speechStart
  | speechResults (value : Option (List String))
  | speechError
  | pressOut
  | speechEnd (t0 : Nat) (outcome : RemoteOutcome)
  | releaseTimer (t0 : Nat) (outcome : RemoteOutcome)
deriving DecidableEq, Repr

/-- One event dispatch. -/
def step : Event → AppState → AppState × List Effect
  | .pressIn, st => handlePressIn st
  | .speechStart, st => onSpeechStart st
  | .speechResults value, st => onSpeechResults value st
  | .speechError, st => onSpeechError st
  | .pressOut, st => handlePressOut st
  | .speechEnd t0 outcome, st => onSpeechEnd t0 outcome st
  | .releaseTimer t0 outcome, st => pressOutTimer t0 outcome st

/-- Run a sequence of events, accumulating effects in order. -/
def run : List Event → AppState → AppState × List Effect
  | [], st => (st, [])
  | e :: es, st =>
    let p := step e st
    let q := run es p.1
    (q.1, p.2 ++ q.2)

/-- Recognize the HTTP-request effects. -/
def isHttpRequest : Effect → Bool
  | .httpRequest _ => true
  | _ => false

/-- Number of HTTP requests among a list of effects. -/
def countRequests (effs : List Effect) : Nat :=
  effs.countP (fun e => isHttpRequest e)

/-- The HTTP requests among a list of effects, in order. -/
def requestsOf (effs : List Effect) : List Request :=
  effs.filterMap (fun e => match e with
    | .httpRequest r => some r
    | _ => none)

end AITutor

namespace AITutor

/- Helper lemmas shared by several claim proofs. -/

theorem jsTrim_empty : jsTrim "" = "" := rfl

theorem ne_empty_of_jsTrim_ne_empty {text : String} (h : jsTrim text ≠ "") :
    text ≠ "" := by
  intro he
  exact h (he ▸ jsTrim_empty)

theorem send_guard_false {text : String} (h : jsTrim text ≠ "") :
    ¬ (text = "" ∨ jsTrim text = "") := by
  rintro (rfl | h2)
  · exact h jsTrim_empty
  · exact h h2

theorem sendTextToBackend_resolved {text : String} (h : jsTrim text ≠ "")
    (t0 : Nat) (response : AxiosResponse) (t1 : Nat) (st : AppState) :
    sendTextToBackend text t0 (.resolved response t1) st =
      ({ st with isLoading := false,
                 messages := st.messages ++
                   [⟨t0, some text, .user⟩,
                    ⟨t1 + 1, respAiResponse response, .ai⟩],
                 textToProcess := "", textRef := "" },
       [.httpRequest ⟨"POST", API_URL, ⟨text⟩, "application/json"⟩,
        .speak (respAiResponse response)]) := by
  simp [sendTextToBackend, send_guard_false h]

theorem sendTextToBackend_rejected {text : String} (h : jsTrim text ≠ "")
    (t0 t1 : Nat) (st : AppState) :
    sendTextToBackend text t0 (.rejected t1) st =
      ({ st with isLoading := false,
                 messages := st.messages ++
                   [⟨t0, some text, .user⟩,
                    ⟨t1, some "Error connecting to server.", .system⟩],
                 textToProcess := "", textRef := "" },
       [.httpRequest ⟨"POST", API_URL, ⟨text⟩, "application/json"⟩,
        .alert "Error" "Failed to connect to the tutor."]) := by
  simp [sendTextToBackend, send_guard_false h]

theorem sendTextToBackend_guard {text : String}
    (h : text = "" ∨ jsTrim text = "") (t0 : Nat) (outcome : RemoteOutcome)
    (st : AppState) :
    sendTextToBackend text t0 outcome st = (st, []) := by
  simp [sendTextToBackend, h]

end AITutor

namespace AITutor

/-- C2: for every successful remote exchange, the appended assistant
Message carries exactly the reply field of the HTTP response body,
and the same value is handed to the text-to-speech call. -/
theorem C2_assistant_text_is_reply_field (text : String)
    (h : jsTrim text ≠ "") (t0 : Nat) (response : AxiosResponse) (t1 : Nat)
    (st : AppState) :
    (sendTextToBackend text t0 (.resolved response t1) st).1.messages
      = st.messages ++
        [⟨t0, some text, .user⟩, ⟨t1 + 1, response.data.reply, .ai⟩] ∧
    Effect.speak response.data.reply
      ∈ (sendTextToBackend text t0 (.resolved response t1) st).2 := by
  rw [sendTextToBackend_resolved h]
  simp [respAiResponse, jsNullish]

/-- C2 witness. -/
theorem C2_witness :
    (sendTextToBackend "hello" 3
        (.resolved ⟨⟨some "Hi there!"⟩⟩ 7) initState).1.messages
      = [⟨3, some "hello", .user⟩, ⟨8, some "Hi there!", .ai⟩] ∧
    Effect.speak (some "Hi there!")
      ∈ (sendTextToBackend "hello" 3
          (.resolved ⟨⟨some "Hi there!"⟩⟩ 7) initState).2 := by
  simpa using
    C2_assistant_text_is_reply_field "hello" (by decide) 3
      ⟨⟨some "Hi there!"⟩⟩ 7 initState

/-- C3: a send of guard-passing text whose remote call resolves
appends exactly one user Message with that text, immediately before
the assistant Message of the same exchange. -/
theorem C3_user_message_before_assistant (text : String)
    (h : jsTrim text ≠ "") (t0 : Nat) (response : AxiosResponse) (t1 : Nat)
    (st : AppState) :
    (sendTextToBackend text t0 (.resolved response t1) st).1.messages
      = st.messages ++
        [⟨t0, some text, .user⟩,
         ⟨t1 + 1, respAiResponse response, .ai⟩] := by
  rw [sendTextToBackend_resolved h]

/-- C3 witness. -/
theorem C3_witness :
    (sendTextToBackend "hello" 3
        (.resolved ⟨⟨some "Hi there!"⟩⟩ 7) initState).1.messages
      = [⟨3, some "hello", .user⟩, ⟨8, some "Hi there!", .ai⟩] := by
  simpa [respAiResponse, jsNullish] using
    C3_user_message_before_assistant "hello" (by decide) 3
      ⟨⟨some "Hi there!"⟩⟩ 7 initState

end AITutor

namespace AITutor

/-- C4 counterexample: a completed HTTP exchange whose 2xx body lacks
the reply field (a malformed body) is not treated as a failure by the
code: the try block still runs, an assistant Message (with undefined
text) is appended, no system-sender Message is appended, and no alert
is raised — contradicting the claim for the malformed-body case. -/
theorem C4_counterexample_malformed_body :
    (sendTextToBackend "hi" 0 (.resolved ⟨⟨none⟩⟩ 5) initState).1.messages.countP
        (fun m => m.sender == Sender.system) = 0 ∧
    (sendTextToBackend "hi" 0 (.resolved ⟨⟨none⟩⟩ 5) initState).1.messages.countP
        (fun m => m.sender == Sender.ai) = 1 ∧
    Effect.alert "Error" "Failed to connect to the tutor."
      ∉ (sendTextToBackend "hi" 0 (.resolved ⟨⟨none⟩⟩ 5) initState).2 := by
  decide

/-- C4 (amended): for every send whose remote call is rejected
(network error or non-2xx status), exactly one system-sender Message
with text Error connecting to server. is appended, no assistant
Message is appended for that exchange, a modal alert is shown, and
the loading flag is cleared afterwards. -/
theorem C4_rejected_exchange (text : String) (h : jsTrim text ≠ "")
    (t0 t1 : Nat) (st : AppState) :
    (sendTextToBackend text t0 (.rejected t1) st).1.messages
      = st.messages ++
        [⟨t0, some text, .user⟩,
         ⟨t1, some "Error connecting to server.", .system⟩] ∧
    (sendTextToBackend text t0 (.rejected t1) st).2
      = [.httpRequest ⟨"POST", API_URL, ⟨text⟩, "application/json"⟩,
         .alert "Error" "Failed to connect to the tutor."] ∧
    (sendTextToBackend text t0 (.rejected t1) st).1.isLoading = false := by
  rw [sendTextToBackend_rejected h]
  simp

/-- C4 witness. -/
theorem C4_witness :
    (sendTextToBackend "hello" 3 (.rejected 7) initState).1.messages
      = [⟨3, some "hello", .user⟩,
         ⟨7, some "Error connecting to server.", .system⟩] ∧
    (sendTextToBackend "hello" 3 (.rejected 7) initState).2
      = [.httpRequest ⟨"POST", API_URL, ⟨"hello"⟩, "application/json"⟩,
         .alert "Error" "Failed to connect to the tutor."] ∧
    (sendTextToBackend "hello" 3 (.rejected 7) initState).1.isLoading
      = false := by
  simpa using C4_rejected_exchange "hello" (by decide) 3 7 initState

/-- C8: every send of guard-passing text issues exactly one HTTP
request: a POST to the fixed hardcoded URL, whose body is the JSON
object with the single field text holding the utterance, with the
Content-Type header set to application/json — for any remote
outcome. -/
theorem C8_wire_protocol (text : String) (h : jsTrim text ≠ "") (t0 : Nat)
    (outcome : RemoteOutcome) (st : AppState) :
    requestsOf (sendTextToBackend text t0 outcome st).2
      = [⟨"POST", "http://localhost:8000/chat", ⟨text⟩, "application/json"⟩]
    ∧ API_URL = "http://localhost:8000/chat" := by
  refine ⟨?_, rfl⟩
  cases outcome with
  | resolved response t1 =>
      rw [sendTextToBackend_resolved h]
      simp [requestsOf, API_URL]
  | rejected t1 =>
      rw [sendTextToBackend_rejected h]
      simp [requestsOf, API_URL]

/-- C8 witness. -/
theorem C8_witness :
    requestsOf (sendTextToBackend "hello" 3 (.rejected 7) initState).2
      = [⟨"POST", "http://localhost:8000/chat", ⟨"hello"⟩,
          "application/json"⟩]
    ∧ API_URL = "http://localhost:8000/chat" :=
  C8_wire_protocol "hello" (by decide) 3 (.rejected 7) initState

/-- C9: a candidate text that is nonempty but whitespace-only is let
through by the truthiness check of the release timer, yet the guard
of the send operation rejects it: the state is unchanged and no
effect — in particular no HTTP request and no Message append —
is produced, whether the send operation is invoked directly or
through the release-timer path. -/
theorem C9_whitespace_only_rejected (text : String) (hne : text ≠ "")
    (hws : jsTrim text = "") (t0 : Nat) (outcome : RemoteOutcome)
    (st : AppState) :
    sendTextToBackend text t0 outcome st = (st, []) ∧
    (st.textRef = text → pressOutTimer t0 outcome st = (st, [])) := by
  refine ⟨sendTextToBackend_guard (Or.inr hws) t0 outcome st, ?_⟩
  intro htr
  rw [pressOutTimer, htr]
  simp [hne, sendTextToBackend_guard (Or.inr hws) t0 outcome st]

/-- C9 witness. -/
theorem C9_witness :
    sendTextToBackend " " 3 (.rejected 7) initState = (initState, []) ∧
    ({ initState with textToProcess := " ", textRef := " " }.textRef = " " →
      pressOutTimer 3 (.rejected 7)
          { initState with textToProcess := " ", textRef := " " }
        = ({ initState with textToProcess := " ", textRef := " " }, [])) := by
  constructor
  · exact (C9_whitespace_only_rejected " " (by decide) (by decide) 3
      (.rejected 7) initState).1
  · exact (C9_whitespace_only_rejected " " (by decide) (by decide) 3
      (.rejected 7) { initState with textToProcess := " ", textRef := " " }).2

/-- C10: a recognizer results event whose value list is absent or
empty leaves the whole state unchanged; an event carrying at least
one value replaces the candidate text (and its mirror ref) with the
first element of the list and changes nothing else. -/
theorem C10_results_frame (value : Option (List String)) (st : AppState) :
    ((value = none ∨ value = some []) → onSpeechResults value st = (st, [])) ∧
    (∀ v vs, value = some (v :: vs) →
      onSpeechResults value st
        = ({ st with textToProcess := v, textRef := v }, [])) := by
  constructor
  · rintro (rfl | rfl) <;> rfl
  · rintro v vs rfl
    rfl

/-- C10 witness. -/
theorem C10_witness :
    onSpeechResults none initState = (initState, []) ∧
    onSpeechResults (some ["hello"]) initState
      = ({ initState with textToProcess := "hello", textRef := "hello" },
         []) :=
  ⟨(C10_results_frame none initState).1 (Or.inl rfl),
   (C10_results_frame (some ["hello"]) initState).2 "hello" [] rfl⟩

end AITutor

namespace AITutor

/-- C5: releasing the button while both the candidate text and its
mirror ref are empty appends no Message and produces no effect (in
particular no HTTP request), even when both post-release triggers
subsequently fire. -/
theorem C5_empty_release_no_send (st : AppState) (h1 : st.textToProcess = "")
    (h2 : st.textRef = "") (tA tB : Nat) (oA oB : RemoteOutcome) :
    (run [Event.pressOut, Event.speechEnd tA oA, Event.releaseTimer tB oB]
        st).1.messages = st.messages ∧
    (run [Event.pressOut, Event.speechEnd tA oA, Event.releaseTimer tB oB]
        st).2 = [] := by
  simp [run, step, handlePressOut, onSpeechEnd, pressOutTimer, h1, h2,
    jsTrim_empty]

/-- C5 witness. -/
theorem C5_witness :
    (run [Event.pressOut, Event.speechEnd 0 (.rejected 1),
        Event.releaseTimer 2 (.rejected 3)] initState).1.messages
      = initState.messages ∧
    (run [Event.pressOut, Event.speechEnd 0 (.rejected 1),
        Event.releaseTimer 2 (.rejected 3)] initState).2 = [] :=
  C5_empty_release_no_send initState rfl rfl 0 2 (.rejected 1) (.rejected 3)

theorem sendTextToBackend_messages_append (text : String) (t0 : Nat)
    (outcome : RemoteOutcome) (st : AppState) :
    ∃ tail, (sendTextToBackend text t0 outcome st).1.messages
      = st.messages ++ tail := by
  by_cases hg : text = "" ∨ jsTrim text = ""
  · exact ⟨[], by rw [sendTextToBackend_guard hg]; simp⟩
  · have h' : jsTrim text ≠ "" := fun h2 => hg (Or.inr h2)
    cases outcome with
    | resolved response t1 =>
        exact ⟨_, by rw [sendTextToBackend_resolved h']⟩
    | rejected t1 =>
        exact ⟨_, by rw [sendTextToBackend_rejected h']⟩

theorem step_messages_append (e : Event) (st : AppState) :
    ∃ tail, (step e st).1.messages = st.messages ++ tail := by
  cases e with
  | pressIn =>
      refine ⟨[], ?_⟩
      simp only [step, handlePressIn, setTextToProcess]
      split <;> simp
  | speechStart => exact ⟨[], by simp [step, onSpeechStart]⟩
  | speechResults value =>
      refine ⟨[], ?_⟩
      simp only [step]
      cases value with
      | none => simp [onSpeechResults]
      | some l => cases l <;> simp [onSpeechResults, setTextToProcess]
  | speechError => exact ⟨[], by simp [step, onSpeechError]⟩
  | pressOut => exact ⟨[], by simp [step, handlePressOut]⟩
  | speechEnd t0 outcome =>
      simp only [step, onSpeechEnd]
      split
      · exact ⟨[], by simp⟩
      · exact sendTextToBackend_messages_append _ t0 outcome _
  | releaseTimer t0 outcome =>
      simp only [step, pressOutTimer]
      split
      · exact ⟨[], by simp⟩
      · exact sendTextToBackend_messages_append _ t0 outcome _

/-- C6: over every sequence of events (gestures, recognizer events,
timer firings, remote outcomes), the conversation list is append
only: the prior list is left intact, in order, as a prefix of the
new list. -/
theorem C6_append_only (es : List Event) (st : AppState) :
    ∃ tail, (run es st).1.messages = st.messages ++ tail := by
  induction es generalizing st with
  | nil => exact ⟨[], by simp [run]⟩
  | cons e es ih =>
      obtain ⟨ta, ha⟩ := step_messages_append e st
      obtain ⟨tb, hb⟩ := ih (step e st).1
      refine ⟨ta ++ tb, ?_⟩
      have : (run (e :: es) st).1 = (run es (step e st).1).1 := rfl
      rw [this, hb, ha, List.append_assoc]

end AITutor

namespace AITutor

/-- C1 counterexample: a press-to-release cycle whose recognized
candidate text is the nonempty whitespace-only string of one space.
Both post-release triggers fire and both read that same nonempty
candidate, yet zero sends reach the backend (the guard of the send
operation trims the text away), not exactly one. -/
theorem C1_counterexample_whitespace_candidate :
    (run [Event.pressIn, Event.speechResults (some [" "])]
        initState).1.textToProcess = " " ∧
    (run [Event.pressIn, Event.speechResults (some [" "])]
        initState).1.textRef = " " ∧
    (" " ≠ "") ∧
    countRequests (run [Event.pressIn, Event.speechResults (some [" "]),
        Event.pressOut, Event.speechEnd 0 (.rejected 1),
        Event.releaseTimer 2 (.rejected 3)] initState).2 = 0 := by
  decide

/-- C1 (amended): in a press-to-release cycle whose held candidate
text contains a non-whitespace character, when both the recognizer
end-of-speech event and the post-release settle-delay timer fire —
in either order — exactly one HTTP send is issued: whichever trigger
runs first clears the shared candidate text inside the send
operation, so the other trigger finds it empty and stands down. -/
theorem C1_exactly_one_send (T : String) (hT : jsTrim T ≠ "")
    (st : AppState) (h1 : st.textToProcess = T) (h2 : st.textRef = T)
    (tA tB : Nat) (oA oB : RemoteOutcome) :
    countRequests (run [Event.pressOut, Event.speechEnd tA oA,
        Event.releaseTimer tB oB] st).2 = 1 ∧
    countRequests (run [Event.pressOut, Event.releaseTimer tB oB,
        Event.speechEnd tA oA] st).2 = 1 := by
  have hne : T ≠ "" := ne_empty_of_jsTrim_ne_empty hT
  constructor
  · cases oA <;>
      simp [run, step, handlePressOut, onSpeechEnd, pressOutTimer, h1, h2,
        hT, hne, sendTextToBackend_resolved hT, sendTextToBackend_rejected hT,
        jsTrim_empty, countRequests, isHttpRequest]
  · cases oB <;>
      simp [run, step, handlePressOut, onSpeechEnd, pressOutTimer, h1, h2,
        hT, hne, sendTextToBackend_resolved hT, sendTextToBackend_rejected hT,
        jsTrim_empty, countRequests, isHttpRequest]

/-- C1 witness. -/
theorem C1_witness :
    countRequests (run [Event.pressOut, Event.speechEnd 0 (.rejected 1),
        Event.releaseTimer 2 (.rejected 3)]
        { initState with textToProcess := "hello", textRef := "hello" }).2
      = 1 ∧
    countRequests (run [Event.pressOut, Event.releaseTimer 2 (.rejected 3),
        Event.speechEnd 0 (.rejected 1)]
        { initState with textToProcess := "hello", textRef := "hello" }).2
      = 1 :=
  C1_exactly_one_send "hello" (by decide) _ rfl rfl 0 2 (.rejected 1)
    (.rejected 3)

theorem nodup_append_pair {l : List Nat} {a b : Nat} (hn : l.Nodup)
    (ha : a ∉ l) (hb : b ∉ l) (hab : a ≠ b) :
    (l ++ [a, b]).Nodup := by
  rw [List.nodup_append]
  refine ⟨hn, by simp [hab], ?_⟩
  intro x hx hmem
  simp only [List.mem_cons, List.mem_singleton, List.not_mem_nil] at hmem
  rcases hmem with rfl | rfl | hmem
  · exact ha hx
  · exact hb hx
  · exact hmem

/-- C7 counterexample: a reachable state with a duplicated message
identifier.  The remote call of the only exchange is rejected within
the same Date.now() millisecond in which it was issued (both readings
are 0), so the user message and the system error message of that one
exchange share the identifier 0. -/
theorem C7_counterexample_same_millisecond :
    ¬ (((run [Event.pressIn, Event.speechResults (some ["Hello"]),
        Event.pressOut, Event.releaseTimer 0 (.rejected 0)]
        initState).1.messages.map Message.id).Nodup) := by
  decide

/-- C7 (amended): message identifiers stay pairwise distinct provided
the Date.now() reading at each send strictly exceeds every identifier
already in the list, the clock does not go backwards across the
exchange, and a rejection is observed at a strictly later millisecond
than the send; within one successful exchange the user/assistant pair
is always distinct because the assistant identifier is the reply-time
reading plus one. -/
theorem C7_unique_ids_of_fresh_times (text : String) (t0 : Nat)
    (outcome : RemoteOutcome) (st : AppState)
    (hnd : (st.messages.map Message.id).Nodup)
    (hfresh : ∀ m ∈ st.messages, m.id < t0)
    (hmono : t0 ≤ outcome.time)
    (hrej : ∀ t1, outcome = RemoteOutcome.rejected t1 → t0 < t1) :
    (((sendTextToBackend text t0 outcome st).1.messages).map
        Message.id).Nodup := by
  by_cases hg : text = "" ∨ jsTrim text = ""
  · rw [sendTextToBackend_guard hg]
    exact hnd
  · have h' : jsTrim text ≠ "" := fun h2 => hg (Or.inr h2)
    cases outcome with
    | resolved response t1 =>
        have hm : t0 ≤ t1 := hmono
        rw [sendTextToBackend_resolved h']
        simp only [List.map_append, List.map_cons, List.map_nil]
        refine nodup_append_pair hnd ?_ ?_ ?_
        · intro hmem
          obtain ⟨m, hm2, hid⟩ := List.mem_map.mp hmem
          exact absurd hid (Nat.ne_of_lt (hfresh m hm2))
        · intro hmem
          obtain ⟨m, hm2, hid⟩ := List.mem_map.mp hmem
          exact absurd hid
            (Nat.ne_of_lt (Nat.lt_of_lt_of_le (hfresh m hm2)
              (Nat.le_succ_of_le hm)))
        · exact Nat.ne_of_lt (Nat.lt_succ_of_le hm)
    | rejected t1 =>
        have hm : t0 < t1 := hrej t1 rfl
        rw [sendTextToBackend_rejected h']
        simp only [List.map_append, List.map_cons, List.map_nil]
        refine nodup_append_pair hnd ?_ ?_ ?_
        · intro hmem
          obtain ⟨m, hm2, hid⟩ := List.mem_map.mp hmem
          exact absurd hid (Nat.ne_of_lt (hfresh m hm2))
        · intro hmem
          obtain ⟨m, hm2, hid⟩ := List.mem_map.mp hmem
          exact absurd hid
            (Nat.ne_of_lt (Nat.lt_trans (hfresh m hm2) hm))
        · exact Nat.ne_of_lt hm

/-- C7 witness. -/
theorem C7_witness :
    (((sendTextToBackend "hello" 5 (.rejected 9)
        { initState with
            messages := [⟨0, some "a", .user⟩] }).1.messages).map
        Message.id).Nodup :=
  C7_unique_ids_of_fresh_times "hello" 5 (.rejected 9)
    { initState with messages := [⟨0, some "a", .user⟩] }
    (by decide) (by decide) (by decide) (fun t1 h => by cases h; decide)

end AITutor
